import Mathlib

/-!
Shallow embedding of `src/instrumental/drivers/lasers/femto_ferb.py`, the
driver for Toptica FemtoFiber lasers, together with proofs of the claims
about it.

The driver is a thin adapter over a transport library (`visa`): each method
sends one textual command and reads back one newline-terminated response
line.  We embed the transport boundary as explicit state passing: an
`InstState` holds the device's queued response lines and a trace of the
transport events performed so far, and each driver method is a function
from `InstState` to a result paired with the updated `InstState`.

Python dynamic values that can flow through `set_control` / `_set_emission`
are embedded as `PyVal` (booleans, integers, strings), with Python's
equality (`True == 1`, `False == 0`) and `str.format` semantics made
explicit.
-/

/-- Dynamically typed Python value, covering the values the driver can
receive or produce: booleans, integers and strings. -/
inductive PyVal : Type where
  | bool : Bool → PyVal
  | int : Int → PyVal
  | str : String → PyVal
deriving DecidableEq, Repr

/-- Python equality `item == v` where `item` is a Python `bool`.
In Python, `True == 1` and `False == 0`; a `bool` never equals a string. -/
def pyEqBool (item : Bool) (v : PyVal) : Bool :=
  match v with
  | .bool b => item == b
  | .int n => (if item then (1 : Int) else 0) == n
  | .str _ => false

/-- Python `str(v)` / `'{}'.format(v)` rendering of a value. -/
def pyFormat : PyVal → String
  | .bool true => "True"
  | .bool false => "False"
  | .int n => toString n
  | .str s => s

/-- Exceptions that can propagate out of the embedded driver code. -/
inductive PyErr : Type where
  | KeyError : String → PyErr
  | InstrumentTypeError : PyErr
  | TransportError : PyErr
deriving DecidableEq, Repr

/-- Transport-level events, in the order the driver performs them.
Modelled from the spec: the external collaborator contract exposes
open-by-address, send command, read line terminated by a terminator,
and close. -/
inductive TEvent : Type where
  | open_port : String → TEvent
  | send : String → TEvent
  | readLine : String → String → TEvent
  | close_conn : TEvent
deriving DecidableEq, Repr

/-- State of one open connection: the device's queued response lines and
the trace of transport events performed so far. -/
structure InstState : Type where
  pending : List String
  trace : List TEvent
deriving DecidableEq, Repr

/-- Modelled from the spec: `Connection.send(command)` — sends one command
on the connection.  This embeds the driver's call `self._inst.ask(message)`
(the transport library is external to the repository; the spec's
collaborator contract gives it a send operation). -/
def Inst.ask (st : InstState) (msg : String) : InstState :=
  { st with trace := st.trace ++ [.send msg] }

/-- Modelled from the spec: `Connection.readLine(terminator)` — blocks
until one line terminated by the terminator is read.  This embeds the
driver's call `self._inst.read(termination)`.  An exhausted response
queue stands for a transport failure, which the driver never catches. -/
def Inst.read (st : InstState) (term : String) : Except PyErr String × InstState :=
  match st.pending with
  | [] => (.error .TransportError, st)
  | l :: rest => (.ok l, { pending := rest, trace := st.trace ++ [.readLine term l] })

/-- Modelled from the spec: `Connection.close()` — releases the connection.
Embeds `self._inst.close()`. -/
def Inst.close (st : InstState) : InstState :=
  { st with trace := st.trace ++ [.close_conn] }

/-- Modelled from the spec: `open(address) -> Connection` — embeds
`visa.instrument(port)`.  The device's future response lines are supplied
as an oracle. -/
def visa.instrument (port : String) (pending : List String) : InstState :=
  { pending := pending, trace := [.open_port port] }

/-- `TRUE = '#t'` from the source. -/
def TRUE : String := "#t"

/-- `FALSE = '#f'` from the source. -/
def FALSE : String := "#f"

/-- `bool_dict = {'#t': True, '#f': False}` from the source, as an
association list in the dict's insertion order. -/
def bool_dict : List (String × Bool) := [("#t", true), ("#f", false)]

/-- Python `d[k]` on a string-keyed dict: the value at `k`, or a
`KeyError` naming the key when absent. -/
def dict_get (d : List (String × Bool)) (k : String) : Except PyErr Bool :=
  match d.find? (fun p => p.1 == k) with
  | some p => .ok p.2
  | none => .error (.KeyError k)

/-- Python `bool_dict[v]` for a dynamically typed key `v`: string keys go
through the table; no non-string value equals either string key, so every
other value raises `KeyError`. -/
def bool_dict_get (v : PyVal) : Except PyErr Bool :=
  match v with
  | .str s => dict_get bool_dict s
  | _ => .error (.KeyError (pyFormat v))

/-- The encoding loop shared by `set_control` and `_set_emission`:
`for key, item in bool_dict.iteritems(): if item == control: control = key`. -/
def encode_control (control : PyVal) : PyVal :=
  bool_dict.foldl (fun c kv => if pyEqBool kv.2 c then .str kv.1 else c) control

/-- `FemtoFiber._ask(message, return_error)`: send the command, read one
line terminated by a newline; with `return_error` set, the literal response
`"0"` is converted to the integer `0` and any other response is returned
as the string itself; without it the raw response string is returned. -/
def FemtoFiber._ask (st : InstState) (message : String) (return_error : Bool) :
    Except PyErr PyVal × InstState :=
  let st1 := Inst.ask st message
  match Inst.read st1 "\n" with
  | (.error e, st2) => (.error e, st2)
  | (.ok line, st2) =>
    if return_error then
      if line == "0" then (.ok (.int 0), st2) else (.ok (.str line), st2)
    else (.ok (.str line), st2)

/-- `FemtoFiber.is_control_on()`: query `(param-ref hw-input-dis)` and
decode the response through `bool_dict`. -/
def FemtoFiber.is_control_on (st : InstState) : Except PyErr Bool × InstState :=
  match FemtoFiber._ask st "(param-ref hw-input-dis)" false with
  | (.ok v, st2) => (bool_dict_get v, st2)
  | (.error e, st2) => (.error e, st2)

/-- `FemtoFiber.set_control(control)`: encode `control` through the
`bool_dict` loop, then send `(param-set! hw-input-dis <control>)` with
`return_error=True`. -/
def FemtoFiber.set_control (st : InstState) (control : PyVal) :
    Except PyErr PyVal × InstState :=
  let c := encode_control control
  FemtoFiber._ask st ("(param-set! hw-input-dis " ++ pyFormat c ++ ")") true

/-- `FemtoFiber.is_on()`: query `(param-ref laser:en)` and decode the
response through `bool_dict`. -/
def FemtoFiber.is_on (st : InstState) : Except PyErr Bool × InstState :=
  match FemtoFiber._ask st "(param-ref laser:en)" false with
  | (.ok v, st2) => (bool_dict_get v, st2)
  | (.error e, st2) => (.error e, st2)

/-- `FemtoFiber._set_emission(control)`: encode `control` through the
`bool_dict` loop, then send `(param-set! laser:en <control>)` with
`return_error=True`. -/
def FemtoFiber._set_emission (st : InstState) (control : PyVal) :
    Except PyErr PyVal × InstState :=
  let c := encode_control control
  FemtoFiber._ask st ("(param-set! laser:en " ++ pyFormat c ++ ")") true

/-- `FemtoFiber.turn_on()`: `return self._set_emission(True)`. -/
def FemtoFiber.turn_on (st : InstState) : Except PyErr PyVal × InstState :=
  FemtoFiber._set_emission st (.bool true)

/-- `FemtoFiber.turn_off()`: `return self._set_emission(False)`. -/
def FemtoFiber.turn_off (st : InstState) : Except PyErr PyVal × InstState :=
  FemtoFiber._set_emission st (.bool false)

/-- `FemtoFiber.close()`: `self._inst.close()`. -/
def FemtoFiber.close (st : InstState) : InstState :=
  Inst.close st

/-- `FemtoFiber.__init__(port)`: open the connection with
`visa.instrument(port)`, then call `self.set_control(True)`, discarding
its return value (an exception would still propagate). -/
def FemtoFiber.init (port : String) (pending : List String) :
    Except PyErr Unit × InstState :=
  let st := visa.instrument port pending
  match FemtoFiber.set_control st (.bool true) with
  | (.ok _, st2) => (.ok (), st2)
  | (.error e, st2) => (.error e, st2)

/-- `_instrument(params)`: build `d` by copying `femto_ferb_port` into
`port` when present; raise `InstrumentTypeError` when `d` stayed empty;
otherwise construct `FemtoFiber(**d)`.  The second component is the list
of transport events that occurred during the call (empty when the error
is raised before any connection is attempted). -/
def _instrument (params : List (String × String)) (pending : List String) :
    Except PyErr InstState × List TEvent :=
  match params.lookup "femto_ferb_port" with
  | none => (.error .InstrumentTypeError, [])
  | some port =>
    match FemtoFiber.init port pending with
    | (.ok _, st) => (.ok st, st.trace)
    | (.error e, st) => (.error e, st.trace)

/-! ## Evaluation lemmas -/

/-- Evaluating `_ask` with `return_error=True` on a connection whose next
response line is `r`. -/
theorem ask_eval_true (tr : List TEvent) (r : String) (rest : List String) (m : String) :
    FemtoFiber._ask ⟨r :: rest, tr⟩ m true =
      ((if r = "0" then Except.ok (PyVal.int 0) else Except.ok (PyVal.str r)),
       ⟨rest, tr ++ [.send m, .readLine "\n" r]⟩) := by
  by_cases h : r = "0" <;>
    simp [FemtoFiber._ask, Inst.ask, Inst.read, h]

/-- Evaluating `_ask` with `return_error=False` on a connection whose next
response line is `r`. -/
theorem ask_eval_false (tr : List TEvent) (r : String) (rest : List String) (m : String) :
    FemtoFiber._ask ⟨r :: rest, tr⟩ m false =
      (Except.ok (PyVal.str r), ⟨rest, tr ++ [.send m, .readLine "\n" r]⟩) := by
  simp [FemtoFiber._ask, Inst.ask, Inst.read]

/-- `bool_dict[r]` as a three-way case split on the string key. -/
theorem bool_dict_get_str (r : String) :
    bool_dict_get (.str r) =
      if r = "#t" then Except.ok true
      else if r = "#f" then Except.ok false
      else Except.error (.KeyError r) := by
  by_cases h1 : r = "#t"
  · simp [bool_dict_get, dict_get, bool_dict, h1]
  · by_cases h2 : r = "#f"
    · simp [bool_dict_get, dict_get, bool_dict, h2]
    · have e1 : ("#t" == r) = false := beq_eq_false_iff_ne.mpr (fun e => h1 e.symm)
      have e2 : ("#f" == r) = false := beq_eq_false_iff_ne.mpr (fun e => h2 e.symm)
      simp [bool_dict_get, dict_get, bool_dict, List.find?, e1, e2, h1, h2]

/-- The encoding loop maps the Python boolean `b` to its token. -/
theorem encode_control_bool (b : Bool) :
    encode_control (.bool b) = .str (if b then "#t" else "#f") := by
  cases b <;> rfl

/-- Evaluating `set_control`. -/
theorem set_control_eval (tr : List TEvent) (r : String) (rest : List String) (control : PyVal) :
    FemtoFiber.set_control ⟨r :: rest, tr⟩ control =
      ((if r = "0" then Except.ok (PyVal.int 0) else Except.ok (PyVal.str r)),
       ⟨rest, tr ++ [.send ("(param-set! hw-input-dis " ++ pyFormat (encode_control control) ++ ")"),
                     .readLine "\n" r]⟩) := by
  simp [FemtoFiber.set_control, ask_eval_true]

/-- Evaluating `_set_emission`. -/
theorem set_emission_eval (tr : List TEvent) (r : String) (rest : List String) (control : PyVal) :
    FemtoFiber._set_emission ⟨r :: rest, tr⟩ control =
      ((if r = "0" then Except.ok (PyVal.int 0) else Except.ok (PyVal.str r)),
       ⟨rest, tr ++ [.send ("(param-set! laser:en " ++ pyFormat (encode_control control) ++ ")"),
                     .readLine "\n" r]⟩) := by
  simp [FemtoFiber._set_emission, ask_eval_true]

/-- Evaluating `is_control_on`. -/
theorem is_control_on_eval (tr : List TEvent) (r : String) (rest : List String) :
    FemtoFiber.is_control_on ⟨r :: rest, tr⟩ =
      (bool_dict_get (.str r),
       ⟨rest, tr ++ [.send "(param-ref hw-input-dis)", .readLine "\n" r]⟩) := by
  simp [FemtoFiber.is_control_on, ask_eval_false]

/-- Evaluating `is_on`. -/
theorem is_on_eval (tr : List TEvent) (r : String) (rest : List String) :
    FemtoFiber.is_on ⟨r :: rest, tr⟩ =
      (bool_dict_get (.str r),
       ⟨rest, tr ++ [.send "(param-ref laser:en)", .readLine "\n" r]⟩) := by
  simp [FemtoFiber.is_on, ask_eval_false]

/-- The encoded `set_control True` command string. -/
theorem control_cmd_true :
    "(param-set! hw-input-dis " ++ pyFormat (encode_control (.bool true)) ++ ")"
      = "(param-set! hw-input-dis #t)" := rfl

/-- The encoded `set_control False` command string. -/
theorem control_cmd_false :
    "(param-set! hw-input-dis " ++ pyFormat (encode_control (.bool false)) ++ ")"
      = "(param-set! hw-input-dis #f)" := rfl

/-- The encoded `_set_emission True` command string. -/
theorem emission_cmd_true :
    "(param-set! laser:en " ++ pyFormat (encode_control (.bool true)) ++ ")"
      = "(param-set! laser:en #t)" := rfl

/-- The encoded `_set_emission False` command string. -/
theorem emission_cmd_false :
    "(param-set! laser:en " ++ pyFormat (encode_control (.bool false)) ++ ")"
      = "(param-set! laser:en #f)" := rfl

/-- Evaluating `FemtoFiber.__init__`: open, then one `set_control(True)`
round trip whose outcome is discarded. -/
theorem init_eval (port : String) (r : String) (rest : List String) :
    FemtoFiber.init port (r :: rest) =
      (Except.ok (),
       ⟨rest, [.open_port port, .send "(param-set! hw-input-dis #t)", .readLine "\n" r]⟩) := by
  by_cases h : r = "0" <;>
    simp [FemtoFiber.init, set_control_eval, visa.instrument, control_cmd_true, h]

/-! ## Claim theorems -/

/-- C1: For every mutating operation (`set_control`, `turn_on`, `turn_off`,
and the internal `_set_emission`), if the response line read from the
device is exactly `"0"` the operation returns the integer `0` (success),
and for every other response string (including `"00"`) it returns that
exact string verbatim, without raising. -/
theorem C1_mutating_response (tr : List TEvent) (r : String) (rest : List String)
    (control : PyVal) :
    (FemtoFiber.set_control ⟨r :: rest, tr⟩ control).1 =
      (if r = "0" then Except.ok (PyVal.int 0) else Except.ok (PyVal.str r)) ∧
    (FemtoFiber._set_emission ⟨r :: rest, tr⟩ control).1 =
      (if r = "0" then Except.ok (PyVal.int 0) else Except.ok (PyVal.str r)) ∧
    (FemtoFiber.turn_on ⟨r :: rest, tr⟩).1 =
      (if r = "0" then Except.ok (PyVal.int 0) else Except.ok (PyVal.str r)) ∧
    (FemtoFiber.turn_off ⟨r :: rest, tr⟩).1 =
      (if r = "0" then Except.ok (PyVal.int 0) else Except.ok (PyVal.str r)) := by
  refine ⟨?_, ?_, ?_, ?_⟩ <;>
    simp [set_control_eval, set_emission_eval, FemtoFiber.turn_on, FemtoFiber.turn_off]

/-- C2: The boolean-token codec is a bijection on its two-element domain:
decoding the token that encodes `b` yields `b`; the two recognized tokens
`#t` and `#f` decode to `true` and `false` and are exactly what encoding
those booleans produces. -/
theorem C2_codec_roundtrip :
    (∀ b : Bool, bool_dict_get (encode_control (.bool b)) = Except.ok b) ∧
    (bool_dict_get (.str "#t") = Except.ok true ∧ encode_control (.bool true) = .str "#t") ∧
    (bool_dict_get (.str "#f") = Except.ok false ∧ encode_control (.bool false) = .str "#f") := by
  refine ⟨fun b => ?_, ⟨rfl, rfl⟩, ⟨rfl, rfl⟩⟩
  cases b <;> rfl

/-- C3: Every public operation of the handle other than `close` performs
exactly one request/response exchange: one command sent, one line read
back with terminator `"\n"`, and nothing else on the connection. -/
theorem C3_single_exchange (tr : List TEvent) (r : String) (rest : List String)
    (control : PyVal) :
    (∃ c, (FemtoFiber.is_control_on ⟨r :: rest, tr⟩).2 =
        ⟨rest, tr ++ [.send c, .readLine "\n" r]⟩) ∧
    (∃ c, (FemtoFiber.is_on ⟨r :: rest, tr⟩).2 =
        ⟨rest, tr ++ [.send c, .readLine "\n" r]⟩) ∧
    (∃ c, (FemtoFiber.set_control ⟨r :: rest, tr⟩ control).2 =
        ⟨rest, tr ++ [.send c, .readLine "\n" r]⟩) ∧
    (∃ c, (FemtoFiber.turn_on ⟨r :: rest, tr⟩).2 =
        ⟨rest, tr ++ [.send c, .readLine "\n" r]⟩) ∧
    (∃ c, (FemtoFiber.turn_off ⟨r :: rest, tr⟩).2 =
        ⟨rest, tr ++ [.send c, .readLine "\n" r]⟩) := by
  refine ⟨⟨"(param-ref hw-input-dis)", ?_⟩, ⟨"(param-ref laser:en)", ?_⟩,
    ⟨"(param-set! hw-input-dis " ++ pyFormat (encode_control control) ++ ")", ?_⟩,
    ⟨"(param-set! laser:en " ++ pyFormat (encode_control (.bool true)) ++ ")", ?_⟩,
    ⟨"(param-set! laser:en " ++ pyFormat (encode_control (.bool false)) ++ ")", ?_⟩⟩ <;>
    simp [is_control_on_eval, is_on_eval, set_control_eval, set_emission_eval,
      FemtoFiber.turn_on, FemtoFiber.turn_off]

/-- C4: Constructing a handle opens the connection to the given port first
and then sends exactly one `(param-set! hw-input-dis #t)` command before
construction returns; construction succeeds whatever response string `r`
that command yields. -/
theorem C4_init_side_effect (port : String) (r : String) (rest : List String) :
    FemtoFiber.init port (r :: rest) =
      (Except.ok (),
       ⟨rest, [.open_port port, .send "(param-set! hw-input-dis #t)", .readLine "\n" r]⟩) := by
  exact init_eval port r rest

/-- C5: A configuration without the `femto_ferb_port` key makes the
factory fail with `InstrumentTypeError` before any transport event occurs;
with the key present, exactly one handle is produced, connected to the
key's value, and every other key is ignored (the outcome depends only on
the port value). -/
theorem C5_factory (params : List (String × String)) (r : String) (rest : List String) :
    (params.lookup "femto_ferb_port" = none →
      _instrument params (r :: rest) = (.error .InstrumentTypeError, [])) ∧
    (∀ port, params.lookup "femto_ferb_port" = some port →
      _instrument params (r :: rest) =
        (.ok ⟨rest, [.open_port port, .send "(param-set! hw-input-dis #t)", .readLine "\n" r]⟩,
         [.open_port port, .send "(param-set! hw-input-dis #t)", .readLine "\n" r])) := by
  constructor
  · intro h
    simp [_instrument, h]
  · intro port h
    simp [_instrument, h, init_eval]

/-- Witness for C5 at concrete configurations: a mapping without the key
fails with no transport event; a mapping with the key (and another,
ignored key) yields the handle for that port. -/
theorem C5_factory_witness :
    _instrument [("other", "y")] ["0"] = (.error .InstrumentTypeError, []) ∧
    _instrument [("other", "y"), ("femto_ferb_port", "COM1")] ["0"] =
      (.ok ⟨[], [.open_port "COM1", .send "(param-set! hw-input-dis #t)", .readLine "\n" "0"]⟩,
       [.open_port "COM1", .send "(param-set! hw-input-dis #t)", .readLine "\n" "0"]) :=
  ⟨(C5_factory [("other", "y")] "0" []).1 rfl,
   (C5_factory [("other", "y"), ("femto_ferb_port", "COM1")] "0" []).2 "COM1" rfl⟩

/-- C6: For every response string other than the two recognized tokens,
`is_control_on` and `is_on` fail with a `KeyError` carrying that string:
the lookup failure propagates, with no retry and no translation. -/
theorem C6_unrecognized_token (tr : List TEvent) (r : String) (rest : List String)
    (h1 : r ≠ "#t") (h2 : r ≠ "#f") :
    (FemtoFiber.is_control_on ⟨r :: rest, tr⟩).1 = .error (.KeyError r) ∧
    (FemtoFiber.is_on ⟨r :: rest, tr⟩).1 = .error (.KeyError r) := by
  constructor <;>
    simp [is_control_on_eval, is_on_eval, bool_dict_get_str, h1, h2]

/-- Witness for C6 at the concrete unrecognized response `"00"`. -/
theorem C6_unrecognized_token_witness :
    ("00" ≠ "#t" ∧ "00" ≠ "#f") ∧
    (FemtoFiber.is_control_on ⟨["00"], []⟩).1 = .error (.KeyError "00") ∧
    (FemtoFiber.is_on ⟨["00"], []⟩).1 = .error (.KeyError "00") :=
  ⟨⟨by decide, by decide⟩, C6_unrecognized_token [] "00" [] (by decide) (by decide)⟩

/-- C7: `turn_on()` is the emission-set operation at `control=True`, which
sends `(param-set! laser:en #t)`; `turn_off()` is the same operation at
`control=False`, sending `(param-set! laser:en #f)` — same command sent,
same result returned. -/
theorem C7_turn_on_off_equiv (st : InstState) (tr : List TEvent) (r : String)
    (rest : List String) :
    FemtoFiber.turn_on st = FemtoFiber._set_emission st (.bool true) ∧
    FemtoFiber.turn_off st = FemtoFiber._set_emission st (.bool false) ∧
    (FemtoFiber._set_emission ⟨r :: rest, tr⟩ (.bool true)).2.trace =
      tr ++ [.send "(param-set! laser:en #t)", .readLine "\n" r] ∧
    (FemtoFiber._set_emission ⟨r :: rest, tr⟩ (.bool false)).2.trace =
      tr ++ [.send "(param-set! laser:en #f)", .readLine "\n" r] := by
  refine ⟨rfl, rfl, ?_, ?_⟩ <;>
    simp [set_emission_eval, emission_cmd_true, emission_cmd_false]

/-- C8: `is_on()` sends `(param-ref laser:en)` and returns `true` exactly
on response `#t` and `false` exactly on `#f`; `is_control_on()` does the
same with `(param-ref hw-input-dis)`. -/
theorem C8_query_semantics (tr : List TEvent) (r : String) (rest : List String) :
    FemtoFiber.is_on ⟨r :: rest, tr⟩ =
      ((if r = "#t" then Except.ok true else if r = "#f" then Except.ok false
        else Except.error (.KeyError r)),
       ⟨rest, tr ++ [.send "(param-ref laser:en)", .readLine "\n" r]⟩) ∧
    FemtoFiber.is_control_on ⟨r :: rest, tr⟩ =
      ((if r = "#t" then Except.ok true else if r = "#f" then Except.ok false
        else Except.error (.KeyError r)),
       ⟨rest, tr ++ [.send "(param-ref hw-input-dis)", .readLine "\n" r]⟩) := by
  constructor <;> simp [is_on_eval, is_control_on_eval, bool_dict_get_str]

/-- C9: `set_control(True)` sends exactly `(param-set! hw-input-dis #t)`
and `set_control(False)` sends exactly `(param-set! hw-input-dis #f)`. -/
theorem C9_set_control_commands (tr : List TEvent) (r : String) (rest : List String) :
    (FemtoFiber.set_control ⟨r :: rest, tr⟩ (.bool true)).2.trace =
      tr ++ [.send "(param-set! hw-input-dis #t)", .readLine "\n" r] ∧
    (FemtoFiber.set_control ⟨r :: rest, tr⟩ (.bool false)).2.trace =
      tr ++ [.send "(param-set! hw-input-dis #f)", .readLine "\n" r] := by
  constructor <;>
    simp [set_control_eval, control_cmd_true, control_cmd_false]

/-- C10: An argument `v` that Python-compares equal to neither `True` nor
`False` passes the encoding loop unchanged and is formatted verbatim into
the command string, and the operation proceeds with the normal round
trip. -/
theorem C10_nonbool_passthrough (v : PyVal) (h1 : pyEqBool true v = false)
    (h2 : pyEqBool false v = false) (tr : List TEvent) (r : String) (rest : List String) :
    encode_control v = v ∧
    (FemtoFiber.set_control ⟨r :: rest, tr⟩ v).2.trace =
      tr ++ [.send ("(param-set! hw-input-dis " ++ pyFormat v ++ ")"), .readLine "\n" r] ∧
    (FemtoFiber.set_control ⟨r :: rest, tr⟩ v).1 =
      (if r = "0" then Except.ok (PyVal.int 0) else Except.ok (PyVal.str r)) ∧
    (FemtoFiber._set_emission ⟨r :: rest, tr⟩ v).2.trace =
      tr ++ [.send ("(param-set! laser:en " ++ pyFormat v ++ ")"), .readLine "\n" r] := by
  have he : encode_control v = v := by
    simp [encode_control, bool_dict, h1, h2]
  refine ⟨he, ?_, ?_, ?_⟩ <;> simp [set_control_eval, set_emission_eval, he]

/-- Witness for C10 at the concrete non-boolean argument `"x"`:
`set_control("x")` sends `(param-set! hw-input-dis x)`. -/
theorem C10_nonbool_passthrough_witness :
    pyEqBool true (.str "x") = false ∧ pyEqBool false (.str "x") = false ∧
    encode_control (.str "x") = .str "x" ∧
    (FemtoFiber.set_control ⟨["0"], []⟩ (.str "x")).2.trace =
      [.send "(param-set! hw-input-dis x)", .readLine "\n" "0"] := by
  have h := C10_nonbool_passthrough (.str "x") rfl rfl [] "0" []
  exact ⟨rfl, rfl, h.1, by simpa using h.2.1⟩
